import Mathlib

/-!
Shallow embedding of the ai-coach repository's Garmin client logic
(`src/services/garmin.py` and `src/services/secrets.py`) and proofs of the
behavioural claims about it.

The embedding models Python values explicitly:
* optional / possibly-`None` values become `Option`;
* Python truthiness of strings and integers is modelled by dedicated helpers
  (`pyTruthyS`, `pyOrS`, `pyOrInt`);
* calls into the external `garminconnect` client are modelled by explicit
  outcome values (`Fetch`), since the wire behaviour is owned by that library;
* Python's `round` (banker's rounding, round-half-to-even) is modelled on
  exact fractions of integers (`pythonRoundFrac`), the idealisation of the
  float arithmetic in the source;
* Python `date` arithmetic (`date.today() - timedelta(days=n)`) is modelled
  by a proleptic Gregorian calendar on year/month/day triples.
-/

namespace Coach

/-- Python truthiness of an optional string: `None` and `""` are falsy. -/
def pyTruthyS : Option String → Bool
  | none => false
  | some s => !(s = "")

/-- Python `a or b` for optional strings: `a` if truthy, else `b`. -/
def pyOrS (a b : Option String) : Option String :=
  if pyTruthyS a then a else b

/-- Python `v or d` where `v` is an optional integer (`None` and `0` are falsy). -/
def pyOrInt (v : Option Int) (d : Int) : Int :=
  match v with
  | none => d
  | some n => if n = 0 then d else n

/-- Python `round` on the exact fraction `a / b` (requires `b > 0` for the
half-to-even reading): round to the nearest integer, ties to the even one. -/
def pythonRoundFrac (a b : Int) : Int :=
  if 2 * (a % b) < b then a / b
  else if b < 2 * (a % b) then a / b + 1
  else if (a / b) % 2 = 0 then a / b else a / b + 1

/-- Python `round(a / b, 1)`: one decimal digit, ties to even, as a rational. -/
def round1Frac (a b : Int) : ℚ :=
  Rat.divInt (pythonRoundFrac (a * 10) b) 10

/-- Code-point comparison of characters, as Python compares `str` characters. -/
def charLtB (a b : Char) : Bool := decide (a.toNat < b.toNat)

/-- Lexicographic code-point order on character lists (Python string `<`). -/
def strLtList : List Char → List Char → Bool
  | [], [] => false
  | [], _ :: _ => true
  | _ :: _, [] => false
  | a :: as, b :: bs =>
    if charLtB a b then true
    else if charLtB b a then false
    else strLtList as bs

/-- Python string `>=`: the negation of the strict lexicographic order. -/
def pyStrGe (a b : String) : Bool := !(strLtList a.data b.data)

/-- Python `s.split("T")[0]`: the part of `s` before the first `T`. -/
def splitT (s : String) : String :=
  String.mk (s.data.takeWhile (fun c => !(c = 'T')))

/-- Python `s.replace("_", " ")` for the single-character pattern. -/
def pyReplaceUnderscore (s : String) : String :=
  String.mk (s.data.map (fun c => if c = '_' then ' ' else c))

/-- Python `s.lower()` (ASCII case mapping, which covers the feedback codes). -/
def pyLower (s : String) : String :=
  String.mk (s.data.map Char.toLower)

/-- Python `s.capitalize()`: first character uppercased, the rest lowercased. -/
def pyCapitalize (s : String) : String :=
  match s.data with
  | [] => ""
  | c :: cs => String.mk (c.toUpper :: cs.map Char.toLower)

/-- Gregorian leap year test. -/
def isLeap (y : Nat) : Bool := (y % 4 = 0 && !(y % 100 = 0)) || y % 400 = 0

/-- Number of days in month `m` of year `y`. -/
def daysInMonth (y m : Nat) : Nat :=
  if m = 2 then (if isLeap y then 29 else 28)
  else if m = 4 || m = 6 || m = 9 || m = 11 then 30
  else 31

/-- A calendar date (year, month, day), as Python's `datetime.date`. -/
structure YMD where
  y : Nat
  m : Nat
  d : Nat
deriving DecidableEq

/-- The previous calendar day. -/
def prevDay (dt : YMD) : YMD :=
  if 1 < dt.d then ⟨dt.y, dt.m, dt.d - 1⟩
  else if 1 < dt.m then ⟨dt.y, dt.m - 1, daysInMonth dt.y (dt.m - 1)⟩
  else ⟨dt.y - 1, 12, 31⟩

/-- The next calendar day. -/
def nextDay (dt : YMD) : YMD :=
  if dt.d < daysInMonth dt.y dt.m then ⟨dt.y, dt.m, dt.d + 1⟩
  else if dt.m < 12 then ⟨dt.y, dt.m + 1, 1⟩
  else ⟨dt.y + 1, 1, 1⟩

/-- Subtract `n` days, `n : Nat`. -/
def subDaysN : YMD → Nat → YMD
  | dt, 0 => dt
  | dt, n + 1 => subDaysN (prevDay dt) n

/-- Add `n` days, `n : Nat`. -/
def addDaysN : YMD → Nat → YMD
  | dt, 0 => dt
  | dt, n + 1 => addDaysN (nextDay dt) n

/-- Python `dt - timedelta(days=i)` for a possibly negative `i`. -/
def subDaysI (dt : YMD) (i : Int) : YMD :=
  if 0 ≤ i then subDaysN dt i.toNat else addDaysN dt (-i).toNat

/-- Two-digit zero-padded decimal rendering. -/
def pad2 (n : Nat) : String := if n < 10 then "0" ++ toString n else toString n

/-- Four-digit zero-padded decimal rendering. -/
def pad4 (n : Nat) : String :=
  if n < 10 then "000" ++ toString n
  else if n < 100 then "00" ++ toString n
  else if n < 1000 then "0" ++ toString n
  else toString n

/-- Python `date.isoformat()`: `YYYY-MM-DD`. -/
def isoformat (dt : YMD) : String :=
  pad4 dt.y ++ "-" ++ pad2 dt.m ++ "-" ++ pad2 dt.d

/-- The fixed lookup table of `_humanize_sleep_feedback` in
`src/services/garmin.py`. -/
def feedback_map : List (String × String) :=
  [("POSITIVE_LONG_AND_DEEP", "Long sleep with good deep sleep"),
   ("POSITIVE_SHORT_BUT_DEEP", "Short but restorative with good deep sleep"),
   ("POSITIVE_OVERALL_GOOD", "Good overall sleep quality"),
   ("NEGATIVE_LONG_BUT_NOT_ENOUGH_REM", "Long sleep but not enough REM"),
   ("NEGATIVE_LONG_BUT_NOT_ENOUGH_DEEP", "Long sleep but not enough deep sleep"),
   ("NEGATIVE_SHORT_AND_LIGHT", "Short and light sleep"),
   ("NEGATIVE_TOO_MUCH_AWAKE", "Too much time awake during the night"),
   ("NEGATIVE_RESTLESS", "Restless sleep")]

/-- Humanizer `_humanize_sleep_feedback` from `src/services/garmin.py`: empty input gives
`None`, table codes give the table sentence, anything else the generic
underscore-to-space lowercased capitalized transform. -/
def _humanize_sleep_feedback (feedback : String) : Option String :=
  if feedback = "" then none
  else
    match feedback_map.lookup feedback with
    | some v => some v
    | none => some (pyCapitalize (pyLower (pyReplaceUnderscore feedback)))

/-- Outcome of a call into an external collaborator: it either raises an
exception or returns a value. -/
inductive Fetch (α : Type) where
  | raises
  | ok (val : α)
deriving DecidableEq

/-- The module-level mutable state of `src/services/secrets.py`:
`_secret_cache` and `_project_id_cache`. -/
structure SecretState where
  secretCache : List (String × String)
  projCache : Option String
deriving DecidableEq

/-- The external world seen by `src/services/secrets.py`: the process
environment, the GCP metadata probe, whether the `google.cloud` import
succeeds, and the Secret Manager access call per secret id. -/
structure SecretWorld where
  getenv : String → Option String
  metadataProject : Option String
  smImportOk : Bool
  smAccess : String → Fetch String

/-- Helper `_get_project_from_metadata` from `src/services/secrets.py`: returns the
cached project id if truthy, otherwise probes the metadata server, caching a
successful answer; every failure is swallowed into `none`. -/
def _get_project_from_metadata (st : SecretState) (w : SecretWorld) :
    Option String × SecretState :=
  if pyTruthyS st.projCache then (st.projCache, st)
  else
    match w.metadataProject with
    | some p => (some p, ⟨st.secretCache, some p⟩)
    | none => (none, st)

/-- The `access_secret_version` step of `get_secret`: on success the value is
cached and returned; an exception is swallowed into `none` (state kept). -/
def smAccessStep (st : SecretState) (w : SecretWorld) (secret_id : String) :
    Option String × SecretState :=
  match w.smAccess secret_id with
  | .raises => (none, st)
  | .ok v => (some v, ⟨(secret_id, v) :: st.secretCache, st.projCache⟩)

/-- The Secret Manager branch of `get_secret`: import, project-id resolution
(env vars first, then the metadata probe), then the access call; any missing
project id or exception yields `none`. -/
def smPart (st : SecretState) (w : SecretWorld) (secret_id : String) :
    Option String × SecretState :=
  if !w.smImportOk then (none, st)
  else
    let pid0 := pyOrS (w.getenv "GOOGLE_CLOUD_PROJECT") (w.getenv "GCP_PROJECT")
    if pyTruthyS pid0 then smAccessStep st w secret_id
    else
      match _get_project_from_metadata st w with
      | (some _, st2) => smAccessStep st2 w secret_id
      | (none, st2) => (none, st2)

/-- Resolver `get_secret` from `src/services/secrets.py`: cached value first, then the
environment variable (if a truthy fallback name is given and the variable is
set and non-empty), then Secret Manager, else `none`. -/
def get_secret (st : SecretState) (w : SecretWorld) (secret_id : String)
    (env_fallback : Option String) : Option String × SecretState :=
  match st.secretCache.lookup secret_id with
  | some v => (some v, st)
  | none =>
    if pyTruthyS env_fallback ∧ pyTruthyS (w.getenv (env_fallback.getD "")) then
      (w.getenv (env_fallback.getD ""), st)
    else smPart st w secret_id

/-- Convenience resolver `get_garmin_credentials` from `src/services/secrets.py`. -/
def get_garmin_credentials (st : SecretState) (w : SecretWorld) :
    (Option String × Option String) × SecretState :=
  match get_secret st w "garmin-email" (some "GARMIN_EMAIL") with
  | (e, st1) =>
    match get_secret st1 w "garmin-password" (some "GARMIN_PASSWORD") with
    | (p, st2) => ((e, p), st2)

/-- Outcome of the token-persistence step (`TOKEN_DIR.mkdir` +
`client.garth.dump`): success, an `OSError` (caught by the inner handler), or
any other exception (which propagates to the outer handler). -/
inductive PersistOutcome where
  | ok
  | osError
  | otherError
deriving DecidableEq

/-- The session handle held in `GarminService.client`, remembering how it was
obtained (and, for a fresh login, with which credentials). -/
inductive ClientH where
  | resumed
  | fresh (email password : String)
deriving DecidableEq

/-- The external world seen by `GarminService.login`: the secrets world, the
existence of the token directory, and the outcomes of the resume attempt, the
fresh credential login, and the token persistence. -/
structure LoginWorld where
  secrets : SecretWorld
  tokenDirExists : Bool
  resumeOk : Bool
  freshOk : Bool
  persist : PersistOutcome

/-- The credential-resolution step at the top of `login`: if either argument
is falsy, resolve both via `get_garmin_credentials` and default each missing
argument per-field (`email = email or secret_email`). -/
def resolveCreds (st : SecretState) (w : SecretWorld)
    (email password : Option String) :
    (Option String × Option String) × SecretState :=
  if !pyTruthyS email || !pyTruthyS password then
    match get_garmin_credentials st w with
    | ((se, sp), st2) => ((pyOrS email se, pyOrS password sp), st2)
  else ((email, password), st)

/-- Session login `GarminService.login` from `src/services/garmin.py`. Returns the new
`self.client` value, the boolean result, and the secrets state. The resume
path is taken when the token directory exists and the resume call succeeds;
otherwise a fresh login is attempted when a truthy credential pair is
available; a non-`OSError` exception while persisting tokens propagates to
the outer handler. -/
def login (st : SecretState) (w : LoginWorld) (email password : Option String) :
    (Option ClientH × Bool) × SecretState :=
  match resolveCreds st w.secrets email password with
  | ((em, pw), st2) =>
    if w.tokenDirExists && w.resumeOk then ((some ClientH.resumed, true), st2)
    else if !pyTruthyS em || !pyTruthyS pw then ((none, false), st2)
    else if !w.freshOk then ((none, false), st2)
    else
      match w.persist with
      | .otherError => ((none, false), st2)
      | _ => ((some (ClientH.fresh (em.getD "") (pw.getD "")), true), st2)

/-- The fields of the daily user-summary dict consumed by `get_today_stats`. -/
structure Summary where
  restingHeartRate : Option Int
  lastSevenDaysAvgRestingHeartRate : Option Int
  bodyBatteryMostRecentValue : Option Int
  bodyBatteryChargedValue : Option Int
  bodyBatteryDrainedValue : Option Int
  bodyBatteryHighestValue : Option Int
  bodyBatteryLowestValue : Option Int
  averageStressLevel : Option Int
  maxStressLevel : Option Int
  highStressDuration : Option Int
deriving DecidableEq

/-- The `body` sub-record of the snapshot. -/
structure BodyRec where
  resting_hr : Option Int
  resting_hr_7day_avg : Option Int
  bb_current : Option Int
  bb_charged : Option Int
  bb_drained : Option Int
  bb_high : Option Int
  bb_low : Option Int
  stress_avg : Option Int
  stress_max : Option Int
  stress_high_duration : Option Int
deriving DecidableEq

/-- The field mapping of the body section of `get_today_stats`. -/
def mkBody (s : Summary) : BodyRec :=
  ⟨s.restingHeartRate, s.lastSevenDaysAvgRestingHeartRate,
   s.bodyBatteryMostRecentValue, s.bodyBatteryChargedValue,
   s.bodyBatteryDrainedValue, s.bodyBatteryHighestValue,
   s.bodyBatteryLowestValue, s.averageStressLevel, s.maxStressLevel,
   s.highStressDuration⟩

/-- One entry of `sleepScores`: a `value` and a `qualifierKey`. -/
structure QualRec where
  value : Option Int
  qualifierKey : Option String
deriving DecidableEq

/-- The `sleepScores` dict of the daily sleep record. -/
structure Scores where
  overall : Option QualRec
  deepPercentage : Option QualRec
  lightPercentage : Option QualRec
  remPercentage : Option QualRec
  awakeCount : Option QualRec
deriving DecidableEq

/-- The `dailySleepDTO` dict of a raw sleep response. -/
structure SleepDaily where
  sleepTimeSeconds : Option Int
  deepSleepSeconds : Option Int
  lightSleepSeconds : Option Int
  remSleepSeconds : Option Int
  awakeSleepSeconds : Option Int
  sleepScores : Option Scores
  sleepScoreFeedback : Option String
deriving DecidableEq

/-- A truthy raw sleep response, holding an optional `dailySleepDTO`. -/
structure SleepData where
  dailySleepDTO : Option SleepDaily
deriving DecidableEq

/-- The all-`None` daily sleep record (the `or {}` default). -/
def emptyDaily : SleepDaily := ⟨none, none, none, none, none, none, none⟩

/-- The all-`None` scores dict (the `or {}` / `.get(_, {})` default). -/
def emptyScores : Scores := ⟨none, none, none, none, none⟩

/-- The `{}` default for one scores entry. -/
def emptyQual : QualRec := ⟨none, none⟩

/-- One sleep stage of the snapshot: integer percentage and quality label. -/
structure StageRec where
  pct : Int
  quality : Option String
deriving DecidableEq

/-- The four sleep stages of the snapshot. -/
structure Stages where
  deep : StageRec
  light : StageRec
  rem : StageRec
  awake : StageRec
deriving DecidableEq

/-- The `sleep` sub-record of the snapshot. -/
structure SleepRec where
  date : String
  score : Option Int
  quality : Option String
  duration_hours : ℚ
  feedback : Option String
  stages : Stages
deriving DecidableEq

/-- One stage percentage: `round((stage or 0) / sleep_seconds * 100)`. -/
def stagePct (stageSec : Option Int) (n : Int) : Int :=
  pythonRoundFrac (pyOrInt stageSec 0 * 100) n

/-- The sleep record built by `get_today_stats` for the selected date
`check_date`, daily record `daily`, and positive total `n` seconds. -/
def mkSleepRec (check_date : String) (daily : SleepDaily) (n : Int) : SleepRec :=
  let scores := daily.sleepScores.getD emptyScores
  ⟨check_date,
   (scores.overall.getD emptyQual).value,
   (scores.overall.getD emptyQual).qualifierKey,
   round1Frac n 3600,
   _humanize_sleep_feedback (daily.sleepScoreFeedback.getD ""),
   ⟨⟨stagePct daily.deepSleepSeconds n, (scores.deepPercentage.getD emptyQual).qualifierKey⟩,
    ⟨stagePct daily.lightSleepSeconds n, (scores.lightPercentage.getD emptyQual).qualifierKey⟩,
    ⟨stagePct daily.remSleepSeconds n, (scores.remPercentage.getD emptyQual).qualifierKey⟩,
    ⟨stagePct daily.awakeSleepSeconds n, (scores.awakeCount.getD emptyQual).qualifierKey⟩⟩⟩

/-- The fields of one training-readiness entry consumed by `get_today_stats`. -/
structure TRData where
  score : Option Int
  level : Option String
  feedbackShort : Option String
  recoveryTime : Option Int
  hrvWeeklyAverage : Option Int
  sleepScoreFactorFeedback : Option String
  recoveryTimeFactorFeedback : Option String
  acwrFactorFeedback : Option String
deriving DecidableEq

/-- The `recovery` sub-record of the snapshot. -/
structure RecoveryRec where
  score : Option Int
  level : Option String
  feedback : Option String
  recovery_time_hours : Option ℚ
  hrv_weekly_avg : Option Int
  factor_sleep : Option String
  factor_recovery_time : Option String
  factor_training_load : Option String
deriving DecidableEq

/-- The field mapping of the recovery section of `get_today_stats`. -/
def mkRecovery (t : TRData) : RecoveryRec :=
  let m := pyOrInt t.recoveryTime 0
  ⟨t.score, t.level, t.feedbackShort,
   if m = 0 then none else some (round1Frac m 60),
   t.hrvWeeklyAverage, t.sleepScoreFactorFeedback,
   t.recoveryTimeFactorFeedback, t.acwrFactorFeedback⟩

/-- A key of the snapshot dict: absent, set to `None`, or set to a value. -/
inductive Entry (α : Type) where
  | absent
  | null
  | val (a : α)
deriving DecidableEq

/-- `None` becomes a `null` entry, a value becomes a `val` entry. -/
def entryOfOption : Option α → Entry α
  | none => Entry.null
  | some a => Entry.val a

/-- The external world seen by one `get_today_stats` call: today's date and
the outcomes of the three upstream fetches (the sleep fetch per days-ago
offset). `Fetch.ok none` models a falsy (empty or `None`) response. -/
structure StatsEnv where
  today : YMD
  summaryFetch : Fetch (Option Summary)
  sleepFetch : Nat → Fetch (Option SleepData)
  trFetch : Fetch (Option (List TRData))

/-- The snapshot dict returned by `get_today_stats`, keys modelled
explicitly as present-with-value, present-as-`None`, or absent. -/
structure Stats where
  error : Entry String
  date : Entry String
  body : Entry BodyRec
  sleep : Entry SleepRec
  recovery : Entry RecoveryRec
deriving DecidableEq

/-- The body section: an exception gives a `None` entry, a falsy summary
leaves the key unset, a truthy summary is mapped by `mkBody`. -/
def bodyPart (f : Fetch (Option Summary)) : Entry BodyRec :=
  match f with
  | .raises => Entry.null
  | .ok none => Entry.absent
  | .ok (some s) => Entry.val (mkBody s)

/-- The backward sleep-scan loop (`for days_ago in range(7)`), with `fuel`
iterations left starting at offset `daysAgo`. A raising fetch aborts the whole
scan (the `except` sets `sleep = None`); a day whose record is falsy or whose
`sleepTimeSeconds` is falsy or non-positive is skipped; the first qualifying
day is returned and scanning stops. -/
def sleepScanAux (env : StatsEnv) : Nat → Nat → Option SleepRec
  | _, 0 => none
  | daysAgo, fuel + 1 =>
    match env.sleepFetch daysAgo with
    | .raises => none
    | .ok none => sleepScanAux env (daysAgo + 1) fuel
    | .ok (some sd) =>
      match (sd.dailySleepDTO.getD emptyDaily).sleepTimeSeconds with
      | none => sleepScanAux env (daysAgo + 1) fuel
      | some n =>
        if 0 < n then
          some (mkSleepRec (isoformat (subDaysN env.today daysAgo))
            (sd.dailySleepDTO.getD emptyDaily) n)
        else sleepScanAux env (daysAgo + 1) fuel

/-- The sleep section of `get_today_stats`: the 7-day backward scan. -/
def sleepScan (env : StatsEnv) : Option SleepRec := sleepScanAux env 0 7

/-- The recovery section: exception or falsy/empty data give `None`, else the
first list element is mapped by `mkRecovery`. -/
def recoveryPart (f : Fetch (Option (List TRData))) : Option RecoveryRec :=
  match f with
  | .raises => none
  | .ok none => none
  | .ok (some []) => none
  | .ok (some (t :: _)) => some (mkRecovery t)

/-- Aggregator `GarminService.get_today_stats` from `src/services/garmin.py`. -/
def get_today_stats (client : Option ClientH) (env : StatsEnv) : Stats :=
  match client with
  | none => ⟨Entry.val "Not logged in", Entry.absent, Entry.absent, Entry.absent, Entry.absent⟩
  | some _ =>
    ⟨Entry.absent, Entry.val (isoformat env.today), bodyPart env.summaryFetch,
     entryOfOption (sleepScan env), entryOfOption (recoveryPart env.trFetch)⟩

/-- The `activityType` sub-dict of a raw activity. -/
structure ActType where
  typeKey : Option String
deriving DecidableEq

/-- The fields of one raw activity consumed by `get_recent_activities`. -/
structure Activity where
  startTimeLocal : Option String
  activityType : Option ActType
  activityName : Option String
  duration : Option Int
deriving DecidableEq

/-- One simplified activity record of the result list. -/
structure ActRec where
  date : String
  type : String
  name : String
  duration_minutes : ℚ
deriving DecidableEq

/-- The record built for one retained activity (with its parsed date). -/
def mkActRec (dateStr : String) (act : Activity) : ActRec :=
  ⟨dateStr,
   (act.activityType.getD ⟨none⟩).typeKey.getD "unknown",
   act.activityName.getD "",
   round1Frac (act.duration.getD 0) 60⟩

/-- The per-activity filter of `get_recent_activities`: a falsy
`startTimeLocal` drops the activity; otherwise it is retained exactly when
the date part before `T` is lexicographically `>=` the cutoff ISO string. -/
def keepAct (cutoffIso : String) (act : Activity) : Option ActRec :=
  let start := act.startTimeLocal.getD ""
  if start = "" then none
  else if pyStrGe (splitT start) cutoffIso then some (mkActRec (splitT start) act)
  else none

/-- Activity query `GarminService.get_recent_activities` from `src/services/garmin.py`.
The fetched list is an input (the source over-fetches `2 * days` entries from
upstream); a raising fetch or a missing client yields `[]`. -/
def get_recent_activities (client : Option ClientH) (today : YMD)
    (f : Fetch (List Activity)) (days : Int) : List ActRec :=
  match client with
  | none => []
  | some _ =>
    match f with
    | .raises => []
    | .ok acts => acts.filterMap (keepAct (isoformat (subDaysI today (days - 1))))

/-- A day of the backward sleep scan that is inspected and passed over:
its fetch does not raise and yields no strictly positive `sleepTimeSeconds`. -/
def daySkips (f : Fetch (Option SleepData)) : Bool :=
  match f with
  | .raises => false
  | .ok none => true
  | .ok (some sd) =>
    match (sd.dailySleepDTO.getD emptyDaily).sleepTimeSeconds with
    | none => true
    | some n => decide (n ≤ 0)

/-- Uppercase the first character of a string, leaving the rest unchanged. -/
def capFirst (s : String) : String :=
  match s.data with
  | [] => ""
  | c :: cs => String.mk (c.toUpper :: cs)

/-- The humanizer fallback exactly as the spec words it: replace underscores
with spaces, lowercase the result, and capitalize only the first letter of
the whole string. -/
def humanizeFallbackSpec (code : String) : String :=
  capFirst (pyLower (pyReplaceUnderscore code))

/-- A secrets world with nothing available: no environment variables, no
metadata server, no cloud client library. -/
def noSecrets : SecretWorld :=
  ⟨fun _ => none, none, false, fun _ => Fetch.raises⟩

/-- The initial module state of `src/services/secrets.py`: both caches empty. -/
def emptySt : SecretState := ⟨[], none⟩

/-- A login world that reaches the fresh-login step, succeeds, and then hits a
non-`OSError` exception while persisting tokens. -/
def persistCrashWorld : LoginWorld :=
  ⟨noSecrets, false, false, true, PersistOutcome.otherError⟩

/-- A login world that reaches the fresh-login step, succeeds, and then hits
an `OSError` while persisting tokens. -/
def persistOsErrorWorld : LoginWorld :=
  ⟨noSecrets, false, false, true, PersistOutcome.osError⟩

/-- A secrets world in which the environment variables and the secret store
are both populated. -/
def envAndStoreWorld : SecretWorld :=
  ⟨fun nm =>
      if nm = "GARMIN_EMAIL" then some "env@example.com"
      else if nm = "GARMIN_PASSWORD" then some "envpw"
      else none,
   some "proj", true, fun _ => Fetch.ok "store-value"⟩

/-- A login world over `envAndStoreWorld` whose fresh login succeeds. -/
def envAndStoreLogin : LoginWorld :=
  ⟨envAndStoreWorld, false, false, true, PersistOutcome.ok⟩

/-- A minimal daily sleep record: two hours of sleep, half an hour of it
deep, everything else absent. -/
def dailyMin : SleepDaily :=
  ⟨some 7200, some 1800, none, none, none, none, none⟩

/-- A seven-day sleep world in which only day 3 (0-indexed) has a strictly
positive recorded duration; days 0 to 2 return falsy data. -/
def day3Env : StatsEnv :=
  ⟨⟨2024, 3, 15⟩, Fetch.ok none,
   fun i => if i = 3 then Fetch.ok (some ⟨some dailyMin⟩) else Fetch.ok none,
   Fetch.ok none⟩

/-- A sleep world in which day 0 is falsy, the fetch for day 1 raises, and
day 2 would qualify with a strictly positive duration. -/
def raiseMidEnv : StatsEnv :=
  ⟨⟨2024, 3, 15⟩, Fetch.ok none,
   fun i =>
     if i = 1 then Fetch.raises
     else if i = 2 then Fetch.ok (some ⟨some dailyMin⟩)
     else Fetch.ok none,
   Fetch.ok none⟩

/-- A concrete daily user summary. -/
def summaryEx : Summary :=
  ⟨some 52, some 54, some 61, some 70, some 45, some 88, some 20,
   some 31, some 77, some 1200⟩

/-- A world in which the body-summary fetch succeeds but every daily sleep
fetch raises. -/
def sleepAllRaiseEnv : StatsEnv :=
  ⟨⟨2024, 3, 15⟩, Fetch.ok (some summaryEx), fun _ => Fetch.raises, Fetch.raises⟩

/-- An activity starting on 2024-01-03, outside a 7-day window ending
2024-01-10. -/
def actJan3 : Activity :=
  ⟨some "2024-01-03T08:00:00", some ⟨some "running"⟩, some "Morning Run", some 1800⟩

/-- An activity starting on 2024-01-04, inside a 7-day window ending
2024-01-10. -/
def actJan4 : Activity :=
  ⟨some "2024-01-04T08:00:00", some ⟨some "strength_training"⟩, some "Gym", some 3600⟩

theorem pyOrInt_zero (v : Option Int) : pyOrInt v 0 = v.getD 0 := by
  cases v with
  | none => rfl
  | some n =>
    simp only [pyOrInt, Option.getD_some]
    split
    · simp [*]
    · rfl

theorem pythonRoundFrac_nearest (a b : Int) (hb : 0 < b) (z : Int) :
    |(a : ℚ) / b - (pythonRoundFrac a b : ℚ)| ≤ |(a : ℚ) / b - (z : ℚ)| := by
  have hb0 : b ≠ 0 := ne_of_gt hb
  have hdm : b * (a / b) + a % b = a := Int.ediv_add_emod a b
  have hr0 : (0 : Int) ≤ a % b := Int.emod_nonneg a hb0
  have hr1 : a % b < b := Int.emod_lt_of_pos a hb
  have hbQ : (0 : ℚ) < (b : ℚ) := by exact_mod_cast hb
  have key : (a : ℚ) = (b : ℚ) * ((a / b : Int) : ℚ) + ((a % b : Int) : ℚ) := by
    exact_mod_cast hdm.symm
  have hq : (a : ℚ) / b = ((a / b : Int) : ℚ) + ((a % b : Int) : ℚ) / (b : ℚ) := by
    rw [key]
    field_simp
    ring
  set Q : ℚ := ((a / b : Int) : ℚ) with hQ
  set R : ℚ := ((a % b : Int) : ℚ) / (b : ℚ) with hR
  have hzc : (z : ℚ) ≤ Q ∨ Q + 1 ≤ (z : ℚ) := by
    rcases le_or_lt z (a / b) with h | h
    · left; rw [hQ]; exact_mod_cast h
    · right; rw [hQ]; exact_mod_cast h
  set A : ℚ := |(a : ℚ) / b - (z : ℚ)| with hA
  have hub : Q + R - (z : ℚ) ≤ A := by rw [hA, ← hq]; exact le_abs_self _
  have hlb : -(Q + R - (z : ℚ)) ≤ A := by rw [hA, ← hq]; exact neg_le_abs _
  have hrQ0 : (0 : ℚ) ≤ R := by rw [hR]; positivity
  have hrQ1 : R < 1 := by
    rw [hR, div_lt_one hbQ]; exact_mod_cast hr1
  rw [hq]
  unfold pythonRoundFrac
  split
  · rename_i h
    have hhalf : R < 1 / 2 := by
      rw [hR, div_lt_div_iff₀ hbQ (by norm_num)]
      have : (2 : ℚ) * ((a % b : Int) : ℚ) < (b : ℚ) := by exact_mod_cast h
      linarith
    rw [abs_le]
    constructor <;> rcases hzc with hz | hz <;> rw [← hQ] <;> nlinarith
  · split
    · rename_i h1 h2
      have hhalf : 1 / 2 < R := by
        rw [hR, div_lt_div_iff₀ (by norm_num) hbQ]
        have : (b : ℚ) < 2 * ((a % b : Int) : ℚ) := by exact_mod_cast h2
        linarith
      rw [abs_le]
      constructor <;> rcases hzc with hz | hz <;> push_cast <;> rw [← hQ] <;> nlinarith
    · have hhalf : R = 1 / 2 := by
        rename_i h1 h2
        have h3 : 2 * (a % b) = b := by omega
        have h3Q : (2 : ℚ) * ((a % b : Int) : ℚ) = (b : ℚ) := by exact_mod_cast h3
        rw [hR]
        field_simp
        linarith
      split <;>
        (rw [abs_le]; constructor <;> rcases hzc with hz | hz <;> push_cast <;> rw [← hQ] <;> nlinarith)

theorem stagePct_nearest (x : Option Int) (n : Int) (hn : 0 < n) (z : Int) :
    |(x.getD 0 : ℚ) / (n : ℚ) * 100 - (stagePct x n : ℚ)| ≤
      |(x.getD 0 : ℚ) / (n : ℚ) * 100 - (z : ℚ)| := by
  have hv : ((x.getD 0 * 100 : Int) : ℚ) / (n : ℚ) = (x.getD 0 : ℚ) / (n : ℚ) * 100 := by
    push_cast
    ring
  have h := pythonRoundFrac_nearest (x.getD 0 * 100) n hn z
  rw [hv] at h
  simpa [stagePct, pyOrInt_zero] using h

theorem toLower_idem (c : Char) : c.toLower.toLower = c.toLower := by
  by_cases h : c.toNat ≥ 65 ∧ c.toNat ≤ 90
  · have h1 : c.toLower = Char.ofNat (c.toNat + 32) := by
      unfold Char.toLower
      simp [h]
    rw [h1]
    obtain ⟨h2, h3⟩ := h
    set m := c.toNat with hm
    interval_cases m <;> decide
  · have h1 : c.toLower = c := by
      unfold Char.toLower
      simp [h]
    rw [h1, h1]

theorem pyCapitalize_pyLower (s : String) : pyCapitalize (pyLower s) = capFirst (pyLower s) := by
  unfold pyCapitalize capFirst pyLower
  cases s.data with
  | nil => rfl
  | cons c cs =>
    have hmap : List.map (Char.toLower ∘ Char.toLower) cs = List.map Char.toLower cs :=
      List.map_congr_left (fun a _ => toLower_idem a)
    simp only [List.map_cons, List.map_map, hmap]

theorem sleepScanAux_skip (env : StatsEnv) (daysAgo fuel : Nat)
    (h : daySkips (env.sleepFetch daysAgo) = true) :
    sleepScanAux env daysAgo (fuel + 1) = sleepScanAux env (daysAgo + 1) fuel := by
  unfold daySkips at h
  cases hf : env.sleepFetch daysAgo with
  | raises => rw [hf] at h; simp at h
  | ok osd =>
    cases osd with
    | none => simp only [sleepScanAux, hf]
    | some sd =>
      rw [hf] at h
      cases hn : (sd.dailySleepDTO.getD emptyDaily).sleepTimeSeconds with
      | none => simp only [sleepScanAux, hf, hn]
      | some n =>
        simp only [hn, decide_eq_true_eq] at h
        simp only [sleepScanAux, hf, hn]
        rw [if_neg (by omega)]

theorem sleepScanAux_shift (env : StatsEnv) (j : Nat) :
    ∀ daysAgo fuel : Nat,
      (∀ i, i < j → daySkips (env.sleepFetch (daysAgo + i)) = true) →
      sleepScanAux env daysAgo (j + fuel) = sleepScanAux env (daysAgo + j) fuel := by
  induction j with
  | zero => intro daysAgo fuel _; simp
  | succ j ih =>
    intro daysAgo fuel h
    have hstep : sleepScanAux env daysAgo (j + 1 + fuel) = sleepScanAux env (daysAgo + 1) (j + fuel) := by
      have h0 : daySkips (env.sleepFetch daysAgo) = true := by
        have := h 0 (Nat.succ_pos j)
        simpa using this
      have : j + 1 + fuel = (j + fuel) + 1 := by omega
      rw [this]
      exact sleepScanAux_skip env daysAgo (j + fuel) h0
    rw [hstep]
    have h' : ∀ i, i < j → daySkips (env.sleepFetch (daysAgo + 1 + i)) = true := by
      intro i hi
      have := h (i + 1) (by omega)
      have harr : daysAgo + (i + 1) = daysAgo + 1 + i := by omega
      rw [harr] at this
      exact this
    rw [ih (daysAgo + 1) fuel h']
    congr 1
    omega

theorem sleepScanAux_found (env : StatsEnv) (daysAgo fuel : Nat) (sd : SleepData) (n : Int)
    (hf : env.sleepFetch daysAgo = Fetch.ok (some sd))
    (hn : (sd.dailySleepDTO.getD emptyDaily).sleepTimeSeconds = some n)
    (hpos : 0 < n) :
    sleepScanAux env daysAgo (fuel + 1) =
      some (mkSleepRec (isoformat (subDaysN env.today daysAgo)) (sd.dailySleepDTO.getD emptyDaily) n) := by
  simp only [sleepScanAux, hf, hn, if_pos hpos]

/-- C1: after every `GarminService.login` call — for any email/password
arguments, any token-store state, any secrets world and any outcomes of the
external client's resume, fresh-login and persist operations — the session
handle (`self.client`) is non-null if and only if the call returned `True`. -/
theorem c1_login_handle_iff_success (st : SecretState) (w : LoginWorld)
    (e p : Option String) :
    ((login st w e p).1.1).isSome = (login st w e p).1.2 := by
  unfold login
  rcases hrc : resolveCreds st w.secrets e p with ⟨⟨em, pw⟩, st2⟩
  simp only [hrc]
  split_ifs <;> try rfl
  cases w.persist <;> rfl

/-- C10: with no session handle (`self.client is None`), `get_today_stats`
returns a record holding only the error field — date, body, sleep and
recovery keys are all absent — and `get_recent_activities` returns `[]`,
whatever the upstream world would have answered. -/
theorem c10_no_client_early_return (env : StatsEnv) (today : YMD)
    (f : Fetch (List Activity)) (days : Int) :
    get_today_stats none env =
      ⟨Entry.val "Not logged in", Entry.absent, Entry.absent, Entry.absent, Entry.absent⟩ ∧
    get_recent_activities none today f days = [] :=
  ⟨rfl, rfl⟩

/-- C2 counterexample: a login call that reaches the fresh-login step with a
successful credential login but whose token-persistence step raises a
non-`OSError` exception returns `False` with the handle cleared — the claim
says any persistence failure is non-fatal. -/
theorem c2_counterexample :
    persistCrashWorld.freshOk = true ∧
    persistCrashWorld.tokenDirExists = false ∧
    (login emptySt persistCrashWorld (some "user@example.com") (some "pw")).1 =
      (none, false) := by
  refine ⟨rfl, rfl, ?_⟩
  decide

/-- C2 (amended): for every login call that reaches the fresh-login step with
a successful credential login, an `OSError` while persisting the new session
tokens is non-fatal — login still assigns the handle and returns `True`.
(A non-`OSError` exception during persistence instead propagates to the outer
handler, clearing the handle and returning `False`.) -/
theorem c2_persist_oserror_nonfatal (st : SecretState) (w : LoginWorld)
    (e p : Option String)
    (hres : (w.tokenDirExists && w.resumeOk) = false)
    (hem : pyTruthyS (resolveCreds st w.secrets e p).1.1 = true)
    (hpw : pyTruthyS (resolveCreds st w.secrets e p).1.2 = true)
    (hfresh : w.freshOk = true)
    (hper : w.persist = PersistOutcome.osError) :
    (login st w e p).1 =
      (some (ClientH.fresh ((resolveCreds st w.secrets e p).1.1.getD "")
        ((resolveCreds st w.secrets e p).1.2.getD "")), true) := by
  unfold login
  rcases hrc : resolveCreds st w.secrets e p with ⟨⟨em, pw⟩, st2⟩
  rw [hrc] at hem hpw
  simp only [hrc, hres, hem, hpw, hfresh, hper]
  rfl

/-- C2 witness: a concrete fresh login over an `OSError`-persisting world. -/
theorem c2_witness :
    (login emptySt persistOsErrorWorld (some "user@example.com") (some "pw")).1 =
      (some (ClientH.fresh "user@example.com" "pw"), true) := by
  have h := c2_persist_oserror_nonfatal emptySt persistOsErrorWorld
    (some "user@example.com") (some "pw") rfl (by decide) (by decide) rfl rfl
  rw [h]
  decide

/-- C3: when no daily sleep fetch raises, the backward scan inspects dates
from today backward over at most 7 days, selects the first (most recent) day
whose record has strictly positive `sleepTimeSeconds`, stops there, and dates
the sleep sub-record with that day; the record is built from that day's data
alone. If no day in the window qualifies, the sleep sub-record is `None`. -/
theorem c3_sleep_backward_scan :
    (∀ (c : ClientH) (env : StatsEnv) (k : Nat) (sd : SleepData) (n : Int),
      k < 7 →
      (∀ i, i < k → daySkips (env.sleepFetch i) = true) →
      env.sleepFetch k = Fetch.ok (some sd) →
      (sd.dailySleepDTO.getD emptyDaily).sleepTimeSeconds = some n →
      0 < n →
      (get_today_stats (some c) env).sleep =
        Entry.val (mkSleepRec (isoformat (subDaysN env.today k))
          (sd.dailySleepDTO.getD emptyDaily) n)) ∧
    (∀ (c : ClientH) (env : StatsEnv),
      (∀ i, i < 7 → daySkips (env.sleepFetch i) = true) →
      (get_today_stats (some c) env).sleep = Entry.null) := by
  constructor
  · intro c env k sd n hk hpre hf hn hpos
    show entryOfOption (sleepScan env) = _
    unfold sleepScan
    have h7 : (7 : Nat) = k + ((6 - k) + 1) := by omega
    rw [h7]
    rw [sleepScanAux_shift env k 0 ((6 - k) + 1) (by intro i hi; simpa using hpre i hi)]
    rw [Nat.zero_add]
    rw [sleepScanAux_found env k (6 - k) sd n hf hn hpos]
    rfl
  · intro c env h
    show entryOfOption (sleepScan env) = Entry.null
    unfold sleepScan
    have h2 : sleepScanAux env 0 7 = sleepScanAux env (0 + 7) 0 :=
      sleepScanAux_shift env 7 0 0 (by intro i hi; simpa using h i hi)
    rw [h2]
    rfl

/-- C3 witness: in `day3Env` only day 3 qualifies; the snapshot's sleep
sub-record is dated three days before today (2024-03-15 → 2024-03-12) and is
built from day 3's data. -/
theorem c3_witness :
    (get_today_stats (some ClientH.resumed) day3Env).sleep =
      Entry.val ⟨"2024-03-12", none, none, 2, none,
        ⟨⟨25, none⟩, ⟨0, none⟩, ⟨0, none⟩, ⟨0, none⟩⟩⟩ := by
  have h := c3_sleep_backward_scan.1 ClientH.resumed day3Env 3 ⟨some dailyMin⟩ 7200
    (by decide) (by decide) (by decide) (by decide) (by decide)
  rw [h]
  decide

/-- C4: if a daily sleep fetch raises before any qualifying day was found,
the whole scan is abandoned and the snapshot's sleep sub-record is `None`,
even when an older day inside the 7-day window would qualify. -/
theorem c4_raise_aborts_scan (c : ClientH) (env : StatsEnv) (k : Nat)
    (hk : k < 7)
    (hpre : ∀ i, i < k → daySkips (env.sleepFetch i) = true)
    (hr : env.sleepFetch k = Fetch.raises) :
    (get_today_stats (some c) env).sleep = Entry.null := by
  show entryOfOption (sleepScan env) = Entry.null
  unfold sleepScan
  have h7 : (7 : Nat) = k + ((6 - k) + 1) := by omega
  rw [h7]
  rw [sleepScanAux_shift env k 0 ((6 - k) + 1) (by intro i hi; simpa using hpre i hi)]
  rw [Nat.zero_add]
  simp only [sleepScanAux, hr]
  rfl

/-- C4 witness: in `raiseMidEnv` day 0 is falsy, the day-1 fetch raises, and
day 2 holds a qualifying record — the sleep sub-record is still `None`. -/
theorem c4_witness :
    (get_today_stats (some ClientH.resumed) raiseMidEnv).sleep = Entry.null ∧
    raiseMidEnv.sleepFetch 2 = Fetch.ok (some ⟨some dailyMin⟩) := by
  constructor
  · exact c4_raise_aborts_scan ClientH.resumed raiseMidEnv 1 (by decide) (by decide) (by decide)
  · decide

/-- C5: the three metric fetches of `get_today_stats` are failure-isolated:
for every combination of outcomes, a raising fetch yields a `None` sub-record
and a succeeding fetch yields its populated sub-record, each determined by
its own fetch outcome alone; in particular, if every sleep fetch raises but
the body-summary fetch succeeds, sleep is `None` and body is populated. -/
theorem c5_partial_failure_isolation :
    (∀ (c : ClientH) (env : StatsEnv),
      env.summaryFetch = Fetch.raises →
      (get_today_stats (some c) env).body = Entry.null) ∧
    (∀ (c : ClientH) (env : StatsEnv) (s : Summary),
      env.summaryFetch = Fetch.ok (some s) →
      (get_today_stats (some c) env).body = Entry.val (mkBody s)) ∧
    (∀ (c : ClientH) (env : StatsEnv),
      (∀ i, i < 7 → env.sleepFetch i = Fetch.raises) →
      (get_today_stats (some c) env).sleep = Entry.null) ∧
    (∀ (c : ClientH) (env : StatsEnv),
      env.trFetch = Fetch.raises →
      (get_today_stats (some c) env).recovery = Entry.null) ∧
    (∀ (c : ClientH) (env : StatsEnv) (t : TRData) (ts : List TRData),
      env.trFetch = Fetch.ok (some (t :: ts)) →
      (get_today_stats (some c) env).recovery = Entry.val (mkRecovery t)) ∧
    (∀ (c : ClientH) (env : StatsEnv) (s : Summary),
      env.summaryFetch = Fetch.ok (some s) →
      (∀ i, i < 7 → env.sleepFetch i = Fetch.raises) →
      (get_today_stats (some c) env).sleep = Entry.null ∧
      (get_today_stats (some c) env).body = Entry.val (mkBody s)) := by
  refine ⟨?_, ?_, ?_, ?_, ?_, ?_⟩
  · intro c env h
    show bodyPart env.summaryFetch = Entry.null
    rw [h]
    rfl
  · intro c env s h
    show bodyPart env.summaryFetch = Entry.val (mkBody s)
    rw [h]
    rfl
  · intro c env h
    show entryOfOption (sleepScan env) = Entry.null
    unfold sleepScan
    simp only [sleepScanAux, h 0 (by omega)]
    rfl
  · intro c env h
    show entryOfOption (recoveryPart env.trFetch) = Entry.null
    rw [h]
    rfl
  · intro c env t ts h
    show entryOfOption (recoveryPart env.trFetch) = Entry.val (mkRecovery t)
    rw [h]
    rfl
  · intro c env s hs hsl
    constructor
    · show entryOfOption (sleepScan env) = Entry.null
      unfold sleepScan
      simp only [sleepScanAux, hsl 0 (by omega)]
      rfl
    · show bodyPart env.summaryFetch = Entry.val (mkBody s)
      rw [hs]
      rfl

/-- C5 witness: in `sleepAllRaiseEnv` every daily sleep fetch raises while
the body-summary fetch succeeds — the snapshot has a `None` sleep sub-record
and a populated body sub-record. -/
theorem c5_witness :
    (get_today_stats (some ClientH.resumed) sleepAllRaiseEnv).sleep = Entry.null ∧
    (get_today_stats (some ClientH.resumed) sleepAllRaiseEnv).body =
      Entry.val (mkBody summaryEx) :=
  c5_partial_failure_isolation.2.2.2.2.2 ClientH.resumed sleepAllRaiseEnv summaryEx
    rfl (fun _ _ => rfl)

theorem mkSleepRec_pcts (d : String) (daily : SleepDaily) (n : Int) :
    (mkSleepRec d daily n).stages.deep.pct = stagePct daily.deepSleepSeconds n ∧
    (mkSleepRec d daily n).stages.light.pct = stagePct daily.lightSleepSeconds n ∧
    (mkSleepRec d daily n).stages.rem.pct = stagePct daily.remSleepSeconds n ∧
    (mkSleepRec d daily n).stages.awake.pct = stagePct daily.awakeSleepSeconds n :=
  ⟨rfl, rfl, rfl, rfl⟩

/-- C6: credential resolution priority. First, with truthy explicit
arguments, `login` never consults the resolver and the fresh login is
performed with exactly the explicit arguments, whatever the environment and
secret store hold. Second, with an empty per-process secret cache, a set
(non-empty) environment variable wins over any secret-store value in
`get_secret`. -/
theorem c6_credential_priority :
    (∀ (st : SecretState) (w : LoginWorld) (e p : String),
      e ≠ "" → p ≠ "" →
      (w.tokenDirExists && w.resumeOk) = false →
      w.freshOk = true →
      w.persist ≠ PersistOutcome.otherError →
      (login st w (some e) (some p)).1 = (some (ClientH.fresh e p), true)) ∧
    (∀ (w : SecretWorld) (secret_id envName v : String),
      envName ≠ "" → w.getenv envName = some v → v ≠ "" →
      (get_secret ⟨[], none⟩ w secret_id (some envName)).1 = some v) := by
  constructor
  · intro st w e p he hp hres hfresh hper
    have hrc : resolveCreds st w.secrets (some e) (some p) = ((some e, some p), st) := by
      unfold resolveCreds
      simp [pyTruthyS, he, hp]
    cases hw : w.persist with
    | otherError => exact absurd hw hper
    | ok => simp [login, hrc, hres, hfresh, pyTruthyS, he, hp, hw]
    | osError => simp [login, hrc, hres, hfresh, pyTruthyS, he, hp, hw]
  · intro w secret_id envName v hname henv hv
    unfold get_secret
    simp [pyTruthyS, hname, henv, hv, Option.getD_some]

/-- C6 witness: with explicit arguments, environment variables and a
secret-store value all present, the explicit arguments win; with an empty
cache and both an environment variable and a store value present, the
environment variable wins. -/
theorem c6_witness :
    (login emptySt envAndStoreLogin (some "arg@example.com") (some "argpw")).1 =
      (some (ClientH.fresh "arg@example.com" "argpw"), true) ∧
    (get_secret emptySt envAndStoreWorld "garmin-email" (some "GARMIN_EMAIL")).1 =
      some "env@example.com" := by
  constructor
  · exact c6_credential_priority.1 emptySt envAndStoreLogin "arg@example.com" "argpw"
      (by decide) (by decide) rfl rfl (by decide)
  · exact c6_credential_priority.2 envAndStoreWorld "garmin-email" "GARMIN_EMAIL"
      "env@example.com" (by decide) (by decide) (by decide)

/-- C7: `get_recent_activities(days)` computes the cutoff `today - (days - 1)`
and retains exactly the fetched activities whose local-start date (the part of
`startTimeLocal` before `T`) is lexicographically `>=` the cutoff ISO string;
for `days = 7` and today 2024-01-10 the cutoff is 2024-01-04, an activity
starting 2024-01-03 is excluded and one starting 2024-01-04 is included. -/
theorem c7_activity_cutoff_filter :
    (∀ (c : ClientH) (today : YMD) (days : Int) (acts : List Activity) (a : Activity),
      a ∈ acts →
      a.startTimeLocal.getD "" ≠ "" →
      pyStrGe (splitT (a.startTimeLocal.getD ""))
        (isoformat (subDaysI today (days - 1))) = true →
      mkActRec (splitT (a.startTimeLocal.getD "")) a ∈
        get_recent_activities (some c) today (Fetch.ok acts) days) ∧
    (∀ (c : ClientH) (today : YMD) (days : Int) (acts : List Activity) (r : ActRec),
      r ∈ get_recent_activities (some c) today (Fetch.ok acts) days →
      ∃ a, a ∈ acts ∧ a.startTimeLocal.getD "" ≠ "" ∧
        pyStrGe (splitT (a.startTimeLocal.getD ""))
          (isoformat (subDaysI today (days - 1))) = true ∧
        r = mkActRec (splitT (a.startTimeLocal.getD "")) a) ∧
    isoformat (subDaysI ⟨2024, 1, 10⟩ (7 - 1)) = "2024-01-04" ∧
    (∀ c : ClientH,
      get_recent_activities (some c) ⟨2024, 1, 10⟩ (Fetch.ok [actJan3, actJan4]) 7 =
        [mkActRec "2024-01-04" actJan4]) := by
  refine ⟨?_, ?_, by decide, ?_⟩
  case refine_3 =>
    intro c
    show [actJan3, actJan4].filterMap
        (keepAct (isoformat (subDaysI ⟨2024, 1, 10⟩ (7 - 1)))) =
      [mkActRec "2024-01-04" actJan4]
    decide
  · intro c today days acts a ha h1 h2
    show mkActRec _ a ∈ acts.filterMap (keepAct (isoformat (subDaysI today (days - 1))))
    refine List.mem_filterMap.mpr ⟨a, ha, ?_⟩
    simp [keepAct, h1, h2]
  · intro c today days acts r hr
    obtain ⟨a, ha, hk⟩ := List.mem_filterMap.mp hr
    simp only [keepAct] at hk
    split_ifs at hk with h1 h2
    · exact ⟨a, ha, h1, h2, (Option.some.inj hk).symm⟩

/-- C7 witness: the 2024-01-04 activity is retained for `days = 7` with
today 2024-01-10. -/
theorem c7_witness :
    mkActRec "2024-01-04" actJan4 ∈
      get_recent_activities (some ClientH.resumed) ⟨2024, 1, 10⟩
        (Fetch.ok [actJan3, actJan4]) 7 := by
  have hsp : splitT (actJan4.startTimeLocal.getD "") = "2024-01-04" := by decide
  have h := c7_activity_cutoff_filter.1 ClientH.resumed ⟨2024, 1, 10⟩ 7
    [actJan3, actJan4] actJan4 (by decide) (by decide) (by decide)
  rw [hsp] at h
  exact h

/-- C8: for every selected sleep record with total `n > 0` seconds, each
stage percentage is `stage_seconds / n * 100` rounded to a nearest integer
(Python's round, ties to even), a missing stage-seconds field being treated
as zero before dividing. -/
theorem c8_stage_percentages (d : String) (daily : SleepDaily) (n : Int) (h : 0 < n) :
    ((mkSleepRec d daily n).stages.deep.pct =
        pythonRoundFrac (daily.deepSleepSeconds.getD 0 * 100) n ∧
      ∀ z : Int,
        |(daily.deepSleepSeconds.getD 0 : ℚ) / (n : ℚ) * 100 -
            ((mkSleepRec d daily n).stages.deep.pct : ℚ)| ≤
          |(daily.deepSleepSeconds.getD 0 : ℚ) / (n : ℚ) * 100 - (z : ℚ)|) ∧
    ((mkSleepRec d daily n).stages.light.pct =
        pythonRoundFrac (daily.lightSleepSeconds.getD 0 * 100) n ∧
      ∀ z : Int,
        |(daily.lightSleepSeconds.getD 0 : ℚ) / (n : ℚ) * 100 -
            ((mkSleepRec d daily n).stages.light.pct : ℚ)| ≤
          |(daily.lightSleepSeconds.getD 0 : ℚ) / (n : ℚ) * 100 - (z : ℚ)|) ∧
    ((mkSleepRec d daily n).stages.rem.pct =
        pythonRoundFrac (daily.remSleepSeconds.getD 0 * 100) n ∧
      ∀ z : Int,
        |(daily.remSleepSeconds.getD 0 : ℚ) / (n : ℚ) * 100 -
            ((mkSleepRec d daily n).stages.rem.pct : ℚ)| ≤
          |(daily.remSleepSeconds.getD 0 : ℚ) / (n : ℚ) * 100 - (z : ℚ)|) ∧
    ((mkSleepRec d daily n).stages.awake.pct =
        pythonRoundFrac (daily.awakeSleepSeconds.getD 0 * 100) n ∧
      ∀ z : Int,
        |(daily.awakeSleepSeconds.getD 0 : ℚ) / (n : ℚ) * 100 -
            ((mkSleepRec d daily n).stages.awake.pct : ℚ)| ≤
          |(daily.awakeSleepSeconds.getD 0 : ℚ) / (n : ℚ) * 100 - (z : ℚ)|) := by
  obtain ⟨e1, e2, e3, e4⟩ := mkSleepRec_pcts d daily n
  refine ⟨⟨?_, ?_⟩, ⟨?_, ?_⟩, ⟨?_, ?_⟩, ⟨?_, ?_⟩⟩
  · rw [e1]; unfold stagePct; rw [pyOrInt_zero]
  · intro z; rw [e1]; exact stagePct_nearest daily.deepSleepSeconds n h z
  · rw [e2]; unfold stagePct; rw [pyOrInt_zero]
  · intro z; rw [e2]; exact stagePct_nearest daily.lightSleepSeconds n h z
  · rw [e3]; unfold stagePct; rw [pyOrInt_zero]
  · intro z; rw [e3]; exact stagePct_nearest daily.remSleepSeconds n h z
  · rw [e4]; unfold stagePct; rw [pyOrInt_zero]
  · intro z; rw [e4]; exact stagePct_nearest daily.awakeSleepSeconds n h z

/-- C8 witness: `deepSleepSeconds = 1800` with total 7200 gives a deep-stage
percentage of 25. -/
theorem c8_witness :
    (mkSleepRec "2024-01-01" dailyMin 7200).stages.deep.pct = 25 := by
  have h := (c8_stage_percentages "2024-01-01" dailyMin 7200 (by decide)).1.1
  rw [h]
  decide

/-- C9: the feedback humanizer returns `None` for empty input, the table's
sentence for every code in its fixed lookup table, and otherwise the code
with underscores replaced by spaces, lowercased, with only the first letter
of the whole string capitalized; in particular `"NEGATIVE_FOO_BAR"` maps to
`"Negative foo bar"`. -/
theorem c9_humanizer :
    _humanize_sleep_feedback "" = none ∧
    (∀ kv ∈ feedback_map, _humanize_sleep_feedback kv.1 = some kv.2) ∧
    (∀ code : String, code ≠ "" → feedback_map.lookup code = none →
      _humanize_sleep_feedback code = some (humanizeFallbackSpec code)) ∧
    _humanize_sleep_feedback "NEGATIVE_FOO_BAR" = some "Negative foo bar" := by
  refine ⟨rfl, by decide, ?_, by decide⟩
  intro code h1 h2
  unfold _humanize_sleep_feedback
  rw [if_neg h1, h2, pyCapitalize_pyLower]
  rfl

/-- C9 witness: a code outside the table goes through the generic
transform. -/
theorem c9_witness :
    _humanize_sleep_feedback "SOME_NEW_CODE" = some "Some new code" := by
  have h := c9_humanizer.2.2.1 "SOME_NEW_CODE" (by decide) (by decide)
  rw [h]
  decide

end Coach
